/-
Verification development for the post/reply forum service.

The service stores posts with a status lifecycle (unpublished, published,
hidden, banned, deleted) and threaded replies under several storage
strategies: an embedded nested-array representation (top-level reply
documents whose `replies` field recursively holds sub-reply objects) and a
flat collection of reply records linked by `parentReplyId` with an
adjacency projection in each record's `replies` field.

Each definition below is a shallow embedding of a concrete function of the
JavaScript source; the source file and function are named next to each
definition.  Database reads (findOne / findById) are modelled by passing
the looked-up record as an `Option` argument or the collection as a list;
`updateOne` / `$inc` effects are modelled by returning the updated record,
the updated list, or the counter delta that the source applies.
-/
import Mathlib

namespace ForumSpec

/-! ## Roles

`['admin', 'superadmin'].includes(userType)` as used throughout
`src/utils/postFilters.js`, `src/controllers/reply.controller.js` and
`src/controllers/comments.controller.js`. -/

def isAdminType (userType : String) : Bool :=
  userType = "admin" || userType = "superadmin"

/-! ## postFilters.js -/

/-- Result shape of `validateStatusTransition`: an `allowed` flag and an
optional `reason` string. -/
structure TransitionResult where
  allowed : Bool
  reason : Option String
deriving Repr, DecidableEq

/-- Owner transition table, `src/utils/postFilters.js` lines 107-113.
The catch-all `_` branch models `validTransitions[currentStatus] || []`. -/
def ownerTransitions : String → List String
  | "unpublished" => ["published", "deleted"]
  | "published" => ["hidden", "deleted"]
  | "hidden" => ["published", "deleted"]
  | "banned" => ["deleted"]
  | "deleted" => []
  | _ => []

/-- Admin transition table, `src/utils/postFilters.js` lines 116-122. -/
def adminTransitions : String → List String
  | "published" => ["banned"]
  | "hidden" => ["banned"]
  | "banned" => ["published"]
  | "deleted" => ["published"]
  | "unpublished" => []
  | _ => []

/-- Embedding of `validateStatusTransition(currentStatus, targetStatus,
userType)`, `src/utils/postFilters.js` lines 103-135. -/
def validateStatusTransition (currentStatus targetStatus userType : String) :
    TransitionResult :=
  let validTransitions :=
    if isAdminType userType then adminTransitions currentStatus
    else ownerTransitions currentStatus
  if validTransitions.contains targetStatus then ⟨true, none⟩
  else ⟨false, some ("Cannot transition from " ++ currentStatus ++ " to " ++ targetStatus)⟩

/-- The MongoDB filter objects returned by `buildVisibilityFilter`:
either an exact-status filter or an in-set filter over a status list. -/
inductive StatusFilter where
  | eq (status : String)
  | inList (statuses : List String)
deriving Repr, DecidableEq

/-- Whether a post of status `st` is matched by the filter. -/
def StatusFilter.accepts : StatusFilter → String → Bool
  | .eq s, st => s = st
  | .inList ss, st => ss.contains st

/-- Embedding of `buildVisibilityFilter(userId, userType, options)` with
`options.specificStatus`, `src/utils/postFilters.js` lines 8-36.  `userId` is accepted but unused,
exactly as in the source. -/
def buildVisibilityFilter (userId userType : String) (specificStatus : Option String) :
    StatusFilter :=
  let _ := userId
  if isAdminType userType then
    let adminStatuses := ["published", "banned", "deleted"]
    match specificStatus with
    | some s => if adminStatuses.contains s then .eq s else .inList adminStatuses
    | none => .inList adminStatuses
  else
    match specificStatus with
    | some s =>
      if s = "unpublished" || s = "hidden" then .inList []
      else if ["published"].contains s then .eq s
      else .inList ["published"]
    | none => .inList ["published"]

/-! ## Post model and status controllers

`src/models/Post.js`: `postId`, `userId`, `status`, `isArchived`, `title`,
`content`, `repliesDisabled`, `replyCount` (plus timestamps and ban
metadata, which no claim touches).  `title` and `content` carry no
`required` validator in this schema, so empty values are representable;
the JavaScript falsy test `!post.title` is modelled as equality with `""`. -/

structure Post where
  postId : String
  userId : String
  status : String
  isArchived : Bool
  title : String
  content : String
  repliesDisabled : Bool
  replyCount : Int
deriving Repr, DecidableEq

/-- HTTP outcome of the status-transition endpoints in
`src/controllers/post.status.controller.js`. -/
inductive StatusResult where
  | notFound
  | forbidden (msg : String)
  | badRequest (msg : String)
  | ok (post : Post)
deriving Repr, DecidableEq

/-- Embedding of `publishPost`, `src/controllers/post.status.controller.js`
lines 8-78.  `post?` is the result of the `Post.findOne` lookup by postId. -/
def publishPost (post? : Option Post) (userId userType : String) : StatusResult :=
  match post? with
  | none => .notFound
  | some post =>
    if post.userId ≠ userId then
      .forbidden "You do not have permission to publish this post"
    else
      let transition := validateStatusTransition post.status "published" userType
      if !transition.allowed then .badRequest (transition.reason.getD "")
      else if post.title = "" || post.content = "" then
        .badRequest "Title and content are required to publish"
      else .ok { post with status := "published" }

/-- Embedding of `unhidePost`, `src/controllers/post.status.controller.js`
lines 148-206.
It validates the `hidden → published` transition and ownership but has no
title/content completeness guard. -/
def unhidePost (post? : Option Post) (userId userType : String) : StatusResult :=
  match post? with
  | none => .notFound
  | some post =>
    if post.userId ≠ userId then
      .forbidden "You do not have permission to unhide this post"
    else
      let transition := validateStatusTransition post.status "published" userType
      if !transition.allowed then .badRequest (transition.reason.getD "")
      else .ok { post with status := "published" }

/-! ## Embedded reply-tree storage

`src/controllers/reply.controller.js` (string user ids) and the second half
of `src/controllers/post.status.controller.js` (numeric user ids) operate on
reply documents whose `replies` field is a nested array of sub-reply
objects of unbounded depth.  A sub-reply carries `userId`, `comment`,
`attachments`, `isActive` and its own `replies` array.  The nested array is
represented by the mutually inductive `SubReplyList` (kept mutual rather
than `List SubReply` so that recursion over the tree is structural and
computable in the kernel); dates are omitted as no claim depends on them. -/

mutual
inductive SubReply where
  | mk (userId : String) (comment : String) (attachments : List String)
      (isActive : Bool) (replies : SubReplyList)
inductive SubReplyList where
  | nil
  | cons (head : SubReply) (tail : SubReplyList)
end

def SubReply.userId : SubReply → String
  | .mk u _ _ _ _ => u

def SubReply.comment : SubReply → String
  | .mk _ c _ _ _ => c

def SubReply.attachments : SubReply → List String
  | .mk _ _ att _ _ => att

def SubReply.isActive : SubReply → Bool
  | .mk _ _ _ a _ => a

def SubReply.replies : SubReply → SubReplyList
  | .mk _ _ _ _ rs => rs

def SubReply.withIsActive : SubReply → Bool → SubReply
  | .mk u c att _ rs, a => .mk u c att a rs

def SubReply.withReplies : SubReply → SubReplyList → SubReply
  | .mk u c att a _, rs => .mk u c att a rs

/-- Element access, `current.replies[idx]`. -/
def SubReplyList.get? : SubReplyList → Nat → Option SubReply
  | .nil, _ => none
  | .cons r _, 0 => some r
  | .cons _ rest, n + 1 => rest.get? n

/-- Replacing the element at an index (used to model an in-place mutation
of one entry of the nested array). -/
def SubReplyList.set : SubReplyList → Nat → SubReply → SubReplyList
  | .nil, _, _ => .nil
  | .cons _ rest, 0, r => .cons r rest
  | .cons h rest, n + 1, r => .cons h (rest.set n r)

/-- Appending, `replies.push(newSub)`. -/
def SubReplyList.push : SubReplyList → SubReply → SubReplyList
  | .nil, r => .cons r .nil
  | .cons h rest, r => .cons h (rest.push r)

/-- A top-level reply document of the embedded storage
(the string-id `replySchema` of `src/models/comment.model.js`, second
schema: `userId`, `postId`, `comment`, `attachments`, `isActive`,
`replies`; `src/unnamed/part_013` is the numeric-id variant of the same
shape). -/
structure TopReply where
  id : String
  userId : String
  postId : String
  comment : String
  attachments : List String
  isActive : Bool
  replies : SubReplyList

mutual
/-- Contribution of one node to `countNested`: an inactive node contributes
nothing and its subtree is skipped. -/
def SubReply.activeCount : SubReply → Nat
  | .mk _ _ _ a rs => if a then 1 + countNested rs else 0
/-- The recursive helper `countNested(replies)` of
`src/controllers/reply.controller.js` lines 7-17 (identical copies at
`post.status.controller.js` lines 517-529 and 978-990): counts nodes with
`isActive !== false`, descending only into active nodes. -/
def countNested : SubReplyList → Nat
  | .nil => 0
  | .cons r rest => r.activeCount + countNested rest
end

mutual
/-- Body of the `map` in `processNestedReplies`: keeps the node and
recursively processes its children (user enrichment is dropped as it does
not affect which nodes appear). -/
def processOne : SubReply → SubReply
  | .mk u c att a rs => .mk u c att a (processNestedReplies rs)
/-- Embedding of `processNestedReplies(nestedReplies)`,
`src/controllers/post.status.controller.js` lines 600-645:
`nestedReplies.filter(r => r.isActive !== false).map(...)` — the filtered
(inactive) nodes are dropped together with everything below them, because
only the kept nodes' `replies` are recursed into. -/
def processNestedReplies : SubReplyList → SubReplyList
  | .nil => .nil
  | .cons r rest =>
    if r.isActive then .cons (processOne r) (processNestedReplies rest)
    else processNestedReplies rest
end

mutual
/-- Deep conjunction of `isActive` over a node and its subtree. -/
def SubReply.allActiveDeep : SubReply → Bool
  | .mk _ _ _ a rs => a && rs.allActiveDeep
def SubReplyList.allActiveDeep : SubReplyList → Bool
  | .nil => true
  | .cons r rest => r.allActiveDeep && rest.allActiveDeep
end

/-- Navigation of `deleteNestedReply`
(`src/controllers/reply.controller.js` lines 142-158): walk
`current = current.replies[targetPath[i]]` for all but the last index, then
set `isActive = false` on `current.replies[targetIndex]`.  Returns the
target node (before the flip, for the permission check) and the updated
nested array; `none` models the 404 "Target reply not found" when an index
is out of range. -/
def softDeleteNav : SubReplyList → List Nat → Option (SubReply × SubReplyList)
  | _, [] => none
  | l, [i] =>
    match l.get? i with
    | none => none
    | some r => some (r, l.set i (r.withIsActive false))
  | l, i :: rest =>
    match l.get? i with
    | none => none
    | some r =>
      match softDeleteNav r.replies rest with
      | none => none
      | some (t, rs) => some (t, l.set i (r.withReplies rs))

/-- Pure lookup along the same index paths that `softDeleteNav` walks. -/
def getAt : SubReplyList → List Nat → Option SubReply
  | _, [] => none
  | l, [i] => l.get? i
  | l, i :: rest =>
    match l.get? i with
    | none => none
    | some r => getAt r.replies rest

/-- Outcome of `deleteReply` (`src/controllers/reply.controller.js` lines
166-190).  `ok` carries the saved reply and the counter-increment delta written on
the post — copied there as `-(1 + nestedCount)`. -/
inductive DeleteReplyResult where
  | notFound
  | forbidden
  | ok (reply : TopReply) (replyCountDelta : Int)

/-- Embedding of `deleteReply`, `src/controllers/reply.controller.js`
lines 166-190
(same logic with numeric ids at `post.status.controller.js` lines 951-1000).
`reply?` is `Reply.findById(id)`; `post?` is
the `Post.findOne` lookup by the reply's postId.  No already-deleted check is
performed: the reply found is marked inactive and the counter delta is
`-(1 + countNested(reply.replies))` in every successful call. -/
def deleteReply (reply? : Option TopReply) (post? : Option Post)
    (userId userType : String) : DeleteReplyResult :=
  match reply? with
  | none => .notFound
  | some reply =>
    let isReplyOwner := reply.userId = userId
    let isPostOwner := match post? with
      | some p => p.userId = userId
      | none => false
    if !isReplyOwner && !isPostOwner && !isAdminType userType then .forbidden
    else .ok { reply with isActive := false } (-(1 + (countNested reply.replies : Int)))

/-- Outcome of `deleteNestedReply`. -/
inductive DeleteNestedResult where
  | badRequest
  | notFound
  | forbidden
  | ok (parent : TopReply) (replyCountDelta : Int)

/-- Embedding of `deleteNestedReply`, `src/controllers/reply.controller.js`
lines 126-163: path-addressed soft delete inside one top-level reply document.
On success the post counter delta is a constant `-1`. -/
def deleteNestedReply (parent? : Option TopReply) (post? : Option Post)
    (targetPath : List Nat) (userId userType : String) : DeleteNestedResult :=
  if targetPath.isEmpty then .badRequest
  else
    match parent? with
    | none => .notFound
    | some parent =>
      match post? with
      | none => .notFound
      | some post =>
        match softDeleteNav parent.replies targetPath with
        | none => .notFound
        | some (target, updated) =>
          if !(target.userId = userId) && !(post.userId = userId)
              && !isAdminType userType then .forbidden
          else .ok { parent with replies := updated } (-1)

/-- Outcome of `createReply`. -/
inductive CreateReplyResult where
  | badRequest (msg : String)
  | notFound (msg : String)
  | forbidden (msg : String)
  | created (reply : TopReply) (newReplyCount : Int)

/-- Embedding of `createReply`, `src/controllers/reply.controller.js`
lines 62-84.
Checks: userId/comment present, post exists, `post.status === 'published'`
and `!post.isArchived`.  `repliesDisabled` is never read.  On success the
post counter is incremented by one. -/
def createReply (userId? comment? : Option String) (attachments : List String)
    (post? : Option Post) (newId : String) : CreateReplyResult :=
  if userId?.getD "" = "" || comment?.getD "" = "" then
    .badRequest "Missing userId or comment"
  else
    match post? with
    | none => .notFound "Post not found"
    | some post =>
      if post.status ≠ "published" || post.isArchived then
        .forbidden "Cannot reply to this post"
      else
        .created ⟨newId, userId?.getD "", post.postId, comment?.getD "",
          attachments, true, .nil⟩ (post.replyCount + 1)

/-- Outcome of `createSubReply`. -/
inductive CreateSubReplyResult where
  | badRequest (msg : String)
  | notFound (msg : String)
  | forbidden (msg : String)
  | created (topReply : TopReply) (replyCountDelta : Int)

/-- Lookup `Reply.findById` over the collection of top-level reply
documents. -/
def findTop : List TopReply → String → Option TopReply
  | [], _ => none
  | r :: rest, id => if r.id = id then some r else findTop rest id

/-- Embedding of `createSubReply`, `src/controllers/reply.controller.js`
lines 87-124.
The top-level document is resolved by `parentReplyId`, then by `replyId`,
then by scanning the post's replies (which in the source only compares
top-level `_id`s, `// no deep search here for brevity`).  The owning post
must be published and not archived; the located reply's own `isActive` flag
is never examined before pushing the new sub-reply. -/
def createSubReply (store : List TopReply) (posts : String → Option Post)
    (replyId : String) (userId? comment? : Option String)
    (attachments : List String) (parentReplyId postId? : Option String) :
    CreateSubReplyResult :=
  if userId?.getD "" = "" || comment?.getD "" = "" then
    .badRequest "Missing userId or comment"
  else
    let top1 : Option TopReply :=
      match parentReplyId with
      | some pid => findTop store pid
      | none => none
    let top2 : Option TopReply :=
      match top1 with
      | some t => some t
      | none => findTop store replyId
    let top3 : Option TopReply :=
      match top2 with
      | some t => some t
      | none =>
        match postId? with
        | some pid => (store.filter (fun r => r.postId = pid)).find? (fun r => r.id = replyId)
        | none => none
    match top3 with
    | none => .notFound "Reply not found"
    | some top =>
      match posts top.postId with
      | none => .forbidden "Cannot reply to this post"
      | some post =>
        if post.status ≠ "published" || post.isArchived then
          .forbidden "Cannot reply to this post"
        else
          .created
            { top with replies :=
                top.replies.push (.mk (userId?.getD "") (comment?.getD "") attachments true .nil) }
            1

/-! ## Flat reply-collection storage

`src/models/comment.model.js` and `src/controllers/comments.controller.js`:
independent reply records linked by `parentReplyId`, with the direct child
ids projected into each record's `replies` array.  `deletedAt` dates are
modelled as an abstract clock value of type `Nat`. -/

structure FlatReply where
  replyId : String
  userId : String
  postId : String
  parentReplyId : Option String
  comment : String
  images : List String
  attachments : List String
  isActive : Bool
  isDeleted : Bool
  deletedAt : Option Nat
  deletedBy : Option String
  replies : List String
deriving Repr, DecidableEq

/-- Lookup by reply id over the flat collection (`Reply.findOne` on the
`replyId` field): the first record carrying the requested id. -/
def findReply : List FlatReply → String → Option FlatReply
  | [], _ => none
  | r :: rest, replyId => if r.replyId = replyId then some r else findReply rest replyId

/-- Model of `Reply.updateOne(filter, update)`: applies `f` to the first
record matching `p`, leaving everything else in place. -/
def updateFirst (p : FlatReply → Bool) (f : FlatReply → FlatReply) :
    List FlatReply → List FlatReply
  | [] => []
  | r :: rest => if p r then f r :: rest else r :: updateFirst p f rest

/-- JavaScript `String.prototype.trim()`: strip leading and trailing
whitespace.  Implemented over the character sequence so that it is
computable by the kernel (`String.trim` in the library is built on
`Substring` code that does not reduce). -/
def trimChars (s : String) : String :=
  ⟨((s.data.dropWhile Char.isWhitespace).reverse.dropWhile Char.isWhitespace).reverse⟩

/-- Outcome of `createComment`; `created` carries the new record and the
collection after the save and the parent `$push`. -/
inductive CreateCommentResult where
  | badRequest (msg : String)
  | unauthorized
  | created (reply : FlatReply) (store : List FlatReply)
deriving Repr, DecidableEq

/-- Embedding of `createComment`, `src/controllers/comments.controller.js`
lines 9-84.
Validation order: path `postId`, non-empty trimmed `comment`, JWT user,
then — when a `parentReplyId` is given — parent existence, parent
`postId` equality with the path post, and parent activity
(`!parent.isActive || parent.isDeleted`), in that order (lines 24-30).
The transactional and fallback branches produce the same collection, so a
single successful outcome is modelled. -/
def createComment (store : List FlatReply) (postId : String)
    (userId? comment? : Option String) (parentReplyId : Option String)
    (images attachments : List String) (newId : String) : CreateCommentResult :=
  if postId = "" then .badRequest "postId is required in path"
  else if trimChars (comment?.getD "") = "" then .badRequest "comment is required"
  else
    match userId? with
    | none => .unauthorized
    | some uid =>
      let payload : FlatReply :=
        { replyId := newId, userId := uid, postId := postId
          parentReplyId := parentReplyId, comment := trimChars (comment?.getD "")
          images := images, attachments := attachments
          isActive := true, isDeleted := false
          deletedAt := none, deletedBy := none, replies := [] }
      let saved : CreateCommentResult :=
        let s1 := store ++ [payload]
        let s2 :=
          match parentReplyId with
          | some pid =>
            updateFirst (fun r => r.replyId = pid)
              (fun r => { r with replies := r.replies ++ [newId] }) s1
          | none => s1
        .created payload s2
      match parentReplyId with
      | none => saved
      | some pid =>
        match findReply store pid with
        | none => .badRequest "parentReplyId does not exist"
        | some parent =>
          if parent.postId ≠ postId then
            .badRequest "parentReplyId does not belong to the same post"
          else if !parent.isActive || parent.isDeleted then
            .badRequest "parent reply is not active"
          else saved

/-- The `$set` update of `deleteComment`
(`src/controllers/comments.controller.js` line 133): the target record gets
`isDeleted`, `deletedAt`, `deletedBy`, `isActive := false` and its visible
`comment` replaced by the `"[deleted]"` placeholder. -/
def softDeleteUpdate (replyId requesterId : String) (now : Nat) :
    List FlatReply → List FlatReply :=
  updateFirst (fun r => r.replyId = replyId)
    (fun r =>
      { r with
        isDeleted := true, deletedAt := some now,
        deletedBy := some requesterId, isActive := false,
        comment := "[deleted]" })

/-- The `$pull` update of `deleteComment`
(`src/controllers/comments.controller.js` line 135): the deleted reply's id
is removed from its parent's `replies` projection. -/
def pullChildUpdate (parentId childId : String) :
    List FlatReply → List FlatReply :=
  updateFirst (fun r => r.replyId = parentId)
    (fun r => { r with replies := r.replies.filter (fun c => c ≠ childId) })

/-- Outcome of `deleteComment`.  `okAlreadyDeleted` is the early 200
response of line 99 (`// If already deleted, return OK`); `ok` carries the
re-fetched updated record. -/
inductive DeleteCommentResult where
  | badRequest (msg : String)
  | unauthorized
  | replyNotFound
  | okAlreadyDeleted (reply : FlatReply)
  | forbidden (msg : String)
  | ok (reply : FlatReply)
deriving Repr, DecidableEq

/-- Embedding of `deleteComment`, `src/controllers/comments.controller.js`
lines 87-158.
`user?` is `req.user` as `(userId, userType)`; `postOwner?` is the owner id
recovered from the post-service lookup, `none` when that call fails.  On
success the target record gets `isDeleted`, `deletedAt`, `deletedBy`,
`isActive := false` and its `comment` replaced by `"[deleted]"`, and the
target's id is `$pull`-ed from its parent's `replies` projection.  Returns
the HTTP outcome together with the resulting collection; no post
`replyCount` counter exists on this path. -/
def deleteComment (store : List FlatReply) (postId replyId : String)
    (user? : Option (String × String)) (postOwner? : Option String) (now : Nat) :
    DeleteCommentResult × List FlatReply :=
  if postId = "" || replyId = "" then
    (.badRequest "postId and replyId are required in path", store)
  else
    match user? with
    | none => (.unauthorized, store)
    | some (requesterId, userType) =>
      match findReply store replyId with
      | none => (.replyNotFound, store)
      | some reply =>
        if reply.isDeleted then (.okAlreadyDeleted reply, store)
        else
          let allowed := reply.userId = requesterId || isAdminType userType ||
            (match postOwner? with
             | some owner => owner = requesterId
             | none => false)
          if !allowed then (.forbidden "Forbidden: not allowed to delete this reply", store)
          else
            let s1 := softDeleteUpdate replyId requesterId now store
            let s2 :=
              match reply.parentReplyId with
              | some pid => pullChildUpdate pid replyId s1
              | none => s1
            (match findReply s2 replyId with
             | some updated => .ok updated
             | none => .ok reply, s2)

/-! ## Helper lemmas -/

theorem withIsActive_isActive (r : SubReply) (b : Bool) :
    (r.withIsActive b).isActive = b := by
  cases r with
  | mk u c att a rs => rfl

theorem withIsActive_replies (r : SubReply) (b : Bool) :
    (r.withIsActive b).replies = r.replies := by
  cases r with
  | mk u c att a rs => rfl

theorem withReplies_isActive (r : SubReply) (rs : SubReplyList) :
    (r.withReplies rs).isActive = r.isActive := by
  cases r with
  | mk u c att a rs0 => rfl

theorem withReplies_replies (r : SubReply) (rs : SubReplyList) :
    (r.withReplies rs).replies = rs := by
  cases r with
  | mk u c att a rs0 => rfl

theorem get?_set_self : ∀ (l : SubReplyList) (i : Nat) (r x : SubReply),
    l.get? i = some r → (l.set i x).get? i = some x
  | .nil, _, _, _, h => by simp [SubReplyList.get?] at h
  | .cons _ _, 0, _, _, _ => rfl
  | .cons _ rest, n + 1, r, x, h => get?_set_self rest n r x h

theorem get?_set_ne : ∀ (l : SubReplyList) (i j : Nat) (x : SubReply), j ≠ i →
    (l.set i x).get? j = l.get? j
  | .nil, _, _, _, _ => rfl
  | .cons _ _, 0, 0, _, h => absurd rfl h
  | .cons _ _, 0, _ + 1, _, _ => rfl
  | .cons _ _, _ + 1, 0, _, _ => rfl
  | .cons _ rest, i + 1, j + 1, x, h =>
    get?_set_ne rest i j x (fun hji => h (by rw [hji]))

theorem getAt_nil (l : SubReplyList) : getAt l [] = none := rfl

theorem getAt_single (l : SubReplyList) (i : Nat) : getAt l [i] = l.get? i := rfl

theorem getAt_cons_cons (l : SubReplyList) (m m2 : Nat) (q : List Nat) :
    getAt l (m :: m2 :: q) =
      match l.get? m with
      | none => none
      | some r => getAt r.replies (m2 :: q) := rfl

theorem softDeleteNav_single (l : SubReplyList) (i : Nat) :
    softDeleteNav l [i] =
      match l.get? i with
      | none => none
      | some r => some (r, l.set i (r.withIsActive false)) := rfl

theorem softDeleteNav_cons_cons (l : SubReplyList) (i j : Nat) (rest : List Nat) :
    softDeleteNav l (i :: j :: rest) =
      match l.get? i with
      | none => none
      | some r =>
        match softDeleteNav r.replies (j :: rest) with
        | none => none
        | some (t, rs) => some (t, l.set i (r.withReplies rs)) := rfl

/-- Frame property of the path-addressed soft delete: the targeted node is
returned unchanged and flipped to inactive in the updated tree, and the
`isActive` flag of every node at any other path is untouched. -/
theorem softDeleteNav_frame : ∀ (p : List Nat) (l : SubReplyList) (t : SubReply)
    (l' : SubReplyList), softDeleteNav l p = some (t, l') →
    getAt l p = some t ∧ getAt l' p = some (t.withIsActive false) ∧
    ∀ q : List Nat, q ≠ p →
      (getAt l' q).map SubReply.isActive = (getAt l q).map SubReply.isActive
  | [], l, t, l', h => by simp [softDeleteNav] at h
  | [i], l, t, l', h => by
    rw [softDeleteNav_single] at h
    split at h
    · exact absurd h (by simp)
    · rename_i r hg
      simp only [Option.some.injEq, Prod.mk.injEq] at h
      obtain ⟨ht, hl'⟩ := h
      subst ht
      refine ⟨by rw [getAt_single, hg], ?_, ?_⟩
      · rw [getAt_single, ← hl']
        exact get?_set_self l i r _ hg
      · intro q hq
        cases q with
        | nil => simp [getAt_nil]
        | cons m qtail =>
          cases qtail with
          | nil =>
            have hmi : m ≠ i := fun hmi => hq (by rw [hmi])
            rw [getAt_single, getAt_single, ← hl', get?_set_ne l i m _ hmi]
          | cons m2 qrest =>
            by_cases hmi : m = i
            · subst hmi
              have h1 : l'.get? m = some (r.withIsActive false) := by
                rw [← hl']; exact get?_set_self l m r _ hg
              rw [getAt_cons_cons, getAt_cons_cons, h1, hg]
              dsimp only
              rw [withIsActive_replies]
            · have h1 : l'.get? m = l.get? m := by
                rw [← hl']; exact get?_set_ne l i m _ hmi
              rw [getAt_cons_cons, getAt_cons_cons, h1]
  | i :: j :: rest, l, t, l', h => by
    rw [softDeleteNav_cons_cons] at h
    split at h
    · exact absurd h (by simp)
    · rename_i r hg
      split at h
      · exact absurd h (by simp)
      · rename_i t' rs hs
        simp only [Option.some.injEq, Prod.mk.injEq] at h
        obtain ⟨ht, hl'⟩ := h
        subst ht
        obtain ⟨ih1, ih2, ih3⟩ := softDeleteNav_frame (j :: rest) r.replies t' rs hs
        have hset : l'.get? i = some (r.withReplies rs) := by
          rw [← hl']; exact get?_set_self l i r _ hg
        refine ⟨?_, ?_, ?_⟩
        · rw [getAt_cons_cons, hg]; exact ih1
        · rw [getAt_cons_cons, hset]
          dsimp only
          rw [withReplies_replies]
          exact ih2
        · intro q hq
          cases q with
          | nil => simp [getAt_nil]
          | cons m qtail =>
            cases qtail with
            | nil =>
              by_cases hmi : m = i
              · subst hmi
                rw [getAt_single, getAt_single, hset, hg]
                simp [withReplies_isActive]
              · have h1 : l'.get? m = l.get? m := by
                  rw [← hl']; exact get?_set_ne l i m _ hmi
                rw [getAt_single, getAt_single, h1]
            | cons m2 qrest =>
              by_cases hmi : m = i
              · subst hmi
                have hne : (m2 :: qrest) ≠ (j :: rest) := by
                  intro hcontra; exact hq (by rw [hcontra])
                rw [getAt_cons_cons, getAt_cons_cons, hset, hg]
                dsimp only
                rw [withReplies_replies]
                exact ih3 (m2 :: qrest) hne
              · have h1 : l'.get? m = l.get? m := by
                  rw [← hl']; exact get?_set_ne l i m _ hmi
                rw [getAt_cons_cons, getAt_cons_cons, h1]

mutual
/-- A kept node of the materialized view is active throughout, because it
was filtered on `isActive` and its children were processed recursively. -/
theorem processOne_allActive (r : SubReply) (h : r.isActive = true) :
    (processOne r).allActiveDeep = true := by
  match r with
  | .mk u c att a rs =>
    simp only [SubReply.isActive] at h
    simp [processOne, SubReply.allActiveDeep, h, processNestedReplies_allActive rs]
/-- Every node surviving `processNestedReplies` is active, deeply. -/
theorem processNestedReplies_allActive (l : SubReplyList) :
    (processNestedReplies l).allActiveDeep = true := by
  match l with
  | .nil => rfl
  | .cons r rest =>
    by_cases h : r.isActive = true
    · simp [processNestedReplies, h, SubReplyList.allActiveDeep,
        processOne_allActive r h, processNestedReplies_allActive rest]
    · simp only [Bool.not_eq_true] at h
      simp [processNestedReplies, h, processNestedReplies_allActive rest]
end

/-- Updating via `updateFirst` on one key leaves `findReply` on every key
intact up to
applying the update to the looked-up record of the same key, provided the
update does not change record ids. -/
theorem findReply_updateFirst (k rid : String) (f : FlatReply → FlatReply)
    (hf : ∀ r, (f r).replyId = r.replyId) :
    ∀ l : List FlatReply,
      findReply (updateFirst (fun r => r.replyId = k) f l) rid =
        if k = rid then (findReply l rid).map f else findReply l rid
  | [] => by by_cases hk : k = rid <;> simp [findReply, updateFirst, hk]
  | r :: rest => by
    by_cases hr : r.replyId = k
    · have hstep : updateFirst (fun x => x.replyId = k) f (r :: rest) = f r :: rest := by
        simp [updateFirst, hr]
      rw [hstep]
      by_cases hk : k = rid
      · subst hk
        have hfr : (f r).replyId = k := by rw [hf r, hr]
        simp [findReply, hfr, hr]
      · have hrr : ¬ r.replyId = rid := by rw [hr]; exact hk
        have hfr : ¬ (f r).replyId = rid := by rw [hf r, hr]; exact hk
        simp [findReply, hfr, hrr, hk]
    · have hstep : updateFirst (fun x => x.replyId = k) f (r :: rest) =
          r :: updateFirst (fun x => x.replyId = k) f rest := by
        simp [updateFirst, hr]
      rw [hstep]
      by_cases hrr : r.replyId = rid
      · have hk : ¬ k = rid := fun hcontra => hr (hrr.trans hcontra.symm)
        simp [findReply, hrr, hk]
      · by_cases hk : k = rid
        · subst hk
          have ih := findReply_updateFirst k k f hf rest
          simp only [if_pos rfl] at ih
          simp [findReply, hrr, ih]
        · have ih := findReply_updateFirst k rid f hf rest
          simp only [if_neg hk] at ih
          simp [findReply, hrr, hk, ih]

theorem findReply_softDeleteUpdate (store : List FlatReply) (replyId uid : String)
    (now : Nat) :
    findReply (softDeleteUpdate replyId uid now store) replyId =
      (findReply store replyId).map (fun r =>
        { r with
          isDeleted := true, deletedAt := some now,
          deletedBy := some uid, isActive := false,
          comment := "[deleted]" }) := by
  have h := findReply_updateFirst replyId replyId
    (fun r =>
      { r with
        isDeleted := true, deletedAt := some now,
        deletedBy := some uid, isActive := false,
        comment := "[deleted]" })
    (fun r => rfl) store
  simpa [softDeleteUpdate] using h

theorem findReply_pullChildUpdate (s1 : List FlatReply) (pid childId rid : String) :
    findReply (pullChildUpdate pid childId s1) rid =
      if pid = rid then
        (findReply s1 rid).map (fun r =>
          { r with replies := r.replies.filter (fun c => c ≠ childId) })
      else findReply s1 rid := by
  have h := findReply_updateFirst pid rid
    (fun r => { r with replies := r.replies.filter (fun c => c ≠ childId) })
    (fun r => rfl) s1
  simpa [pullChildUpdate] using h

/-- Successful `deleteComment` calls have a canonical shape: the target was
found, was not yet deleted, and the resulting collection is the soft-delete
update followed (when the target has a parent) by the parent pull. -/
theorem deleteComment_ok_shape (store : List FlatReply) (postId replyId uid utype : String)
    (owner? : Option String) (now : Nat) (r : FlatReply) (s' : List FlatReply)
    (h : deleteComment store postId replyId (some (uid, utype)) owner? now = (.ok r, s')) :
    postId ≠ "" ∧ replyId ≠ "" ∧
    ∃ reply, findReply store replyId = some reply ∧ reply.isDeleted = false ∧
      s' = (match reply.parentReplyId with
            | some pid => pullChildUpdate pid replyId (softDeleteUpdate replyId uid now store)
            | none => softDeleteUpdate replyId uid now store) := by
  simp only [deleteComment] at h
  split at h
  · exact absurd h (by simp)
  · rename_i hids
    cases hfind : findReply store replyId with
    | none => rw [hfind] at h; exact absurd h (by simp)
    | some reply =>
      rw [hfind] at h
      dsimp only at h
      split at h
      · exact absurd h (by simp)
      · rename_i hdel
        split at h
        · exact absurd h (by simp)
        · simp only [Prod.mk.injEq] at h
          refine ⟨?_, ?_, reply, rfl, ?_, h.2.symm⟩
          · intro hpost
            exact hids (by simp [hpost])
          · intro hrid
            exact hids (by simp [hrid])
          · simpa using hdel

/-- After the success updates of `deleteComment`, looking up the deleted id
yields the tombstoned record: flags flipped, `comment` redacted to
`"[deleted]"`, every other content field intact. -/
theorem findReply_after_softDelete (store : List FlatReply) (replyId uid : String)
    (now : Nat) (reply : FlatReply) (hfind : findReply store replyId = some reply)
    (pid? : Option String) :
    ∃ tgt,
      findReply
        (match pid? with
         | some pid => pullChildUpdate pid replyId (softDeleteUpdate replyId uid now store)
         | none => softDeleteUpdate replyId uid now store) replyId = some tgt ∧
      tgt.isDeleted = true ∧ tgt.isActive = false ∧ tgt.comment = "[deleted]" ∧
      tgt.deletedAt = some now ∧ tgt.deletedBy = some uid ∧
      tgt.userId = reply.userId ∧ tgt.postId = reply.postId ∧
      tgt.parentReplyId = reply.parentReplyId ∧ tgt.images = reply.images ∧
      tgt.attachments = reply.attachments := by
  cases pid? with
  | none =>
    refine ⟨{ reply with
      isDeleted := true, deletedAt := some now, deletedBy := some uid,
      isActive := false, comment := "[deleted]" }, ?_, rfl, rfl, rfl, rfl, rfl,
      rfl, rfl, rfl, rfl, rfl⟩
    dsimp only
    rw [findReply_softDeleteUpdate, hfind]
    rfl
  | some pid =>
    by_cases hpid : pid = replyId
    · subst hpid
      refine ⟨{ reply with
        isDeleted := true, deletedAt := some now, deletedBy := some uid,
        isActive := false, comment := "[deleted]",
        replies := reply.replies.filter (fun c => c ≠ pid) }, ?_, rfl, rfl, rfl,
        rfl, rfl, rfl, rfl, rfl, rfl, rfl⟩
      dsimp only
      rw [findReply_pullChildUpdate, if_pos rfl, findReply_softDeleteUpdate, hfind]
      rfl
    · refine ⟨{ reply with
        isDeleted := true, deletedAt := some now, deletedBy := some uid,
        isActive := false, comment := "[deleted]" }, ?_, rfl, rfl, rfl, rfl, rfl,
        rfl, rfl, rfl, rfl, rfl⟩
      dsimp only
      rw [findReply_pullChildUpdate, if_neg hpid, findReply_softDeleteUpdate, hfind]
      rfl

/-! ## Claims -/

/-- Claim C1, counterexample: the claim states that a successful
`deleteReply` adjusts the post's denormalized reply counter by exactly -1
regardless of how many descendants the reply has.  On the embedded storage
this is false: deleting a top-level reply that carries one active nested
sub-reply applies the counter delta `-(1 + nestedCount) = -2`
(`src/controllers/reply.controller.js` lines 184-185). -/
theorem C1_counterexample :
    deleteReply
      (some ⟨"r1", "u1", "p1", "hello", [], true,
        .cons (.mk "u2" "nested" [] true .nil) .nil⟩)
      none "u1" "user" =
      .ok ⟨"r1", "u1", "p1", "hello", [], false,
        .cons (.mk "u2" "nested" [] true .nil) .nil⟩ (-2) ∧
    (-2 : Int) ≠ (-1 : Int) :=
  ⟨rfl, by decide⟩

/-- Claim C1, amended: a successful `deleteReply` adjusts the post's reply
counter by `-(1 + countNested(reply.replies))` — which is -1 exactly when
the reply has no active nested sub-replies — while the path-addressed
`deleteNestedReply` always adjusts it by exactly -1. -/
theorem C1_softdelete_decrement (reply parent : TopReply) (post1? post2? : Option Post)
    (path : List Nat) (userId userType : String) :
    (∀ r d, deleteReply (some reply) post1? userId userType = .ok r d →
      d = -(1 + (countNested reply.replies : Int))) ∧
    (∀ p d, deleteNestedReply (some parent) post2? path userId userType = .ok p d →
      d = -1) := by
  constructor
  · intro r d h
    simp only [deleteReply] at h
    split at h
    · exact absurd h (by simp)
    · simp only [DeleteReplyResult.ok.injEq] at h
      exact h.2.symm
  · intro p d h
    simp only [deleteNestedReply] at h
    split at h
    · exact absurd h (by simp)
    · split at h
      · exact absurd h (by simp)
      · split at h
        · exact absurd h (by simp)
        · split at h
          · exact absurd h (by simp)
          · simp only [DeleteNestedResult.ok.injEq] at h
            exact h.2.symm

/-- Witness for the amended C1 at concrete inputs: a reply with one active
nested sub-reply yields delta -2 on `deleteReply`, and `deleteNestedReply`
at path `[0]` yields delta -1. -/
theorem C1_softdelete_decrement_witness :
    (-2 : Int) =
      -(1 + (countNested (.cons (.mk "u2" "nested" [] true .nil) .nil) : Int)) ∧
    (-1 : Int) = -1 :=
  ⟨(C1_softdelete_decrement
      ⟨"r1", "u1", "p1", "hello", [], true,
        .cons (.mk "u2" "nested" [] true .nil) .nil⟩
      ⟨"t1", "u1", "p1", "top", [], true,
        .cons (.mk "u3" "sub" [] true .nil) .nil⟩
      none (some ⟨"p1", "u1", "published", false, "T", "B", false, 2⟩)
      [0] "u1" "user").1
      ⟨"r1", "u1", "p1", "hello", [], false,
        .cons (.mk "u2" "nested" [] true .nil) .nil⟩ (-2) rfl,
   (C1_softdelete_decrement
      ⟨"r1", "u1", "p1", "hello", [], true,
        .cons (.mk "u2" "nested" [] true .nil) .nil⟩
      ⟨"t1", "u1", "p1", "top", [], true,
        .cons (.mk "u3" "sub" [] true .nil) .nil⟩
      none (some ⟨"p1", "u1", "published", false, "T", "B", false, 2⟩)
      [0] "u1" "user").2
      ⟨"t1", "u1", "p1", "top", [], true,
        .cons (.mk "u3" "sub" [] false .nil) .nil⟩ (-1) rfl⟩

/-- Claim C2, counterexample: for a pair absent from the owner table the
engine does deny, but the reason string is capitalized
"Cannot transition from ...", not the claimed lowercase
"cannot transition from ...". -/
theorem C2_counterexample :
    (validateStatusTransition "published" "published" "user").allowed = false ∧
    (validateStatusTransition "published" "published" "user").reason =
      some "Cannot transition from published to published" ∧
    (validateStatusTransition "published" "published" "user").reason ≠
      some "cannot transition from published to published" :=
  ⟨rfl, rfl, by decide⟩

/-- Claim C2, amended: for every (currentStatus, targetStatus, actorRole)
triple such that the target is not listed for the current status in the
applicable table (owner table for non-admin roles, admin table for
admin/superadmin), `validateStatusTransition` returns `allowed = false`
with reason "Cannot transition from <current> to <target>" (capital C). -/
theorem C2_denied_off_table (current target userType : String)
    (h : (if isAdminType userType then adminTransitions current
          else ownerTransitions current).contains target = false) :
    validateStatusTransition current target userType =
      ⟨false, some ("Cannot transition from " ++ current ++ " to " ++ target)⟩ := by
  have h' : target ∉ (if isAdminType userType then adminTransitions current
      else ownerTransitions current) := by
    intro hmem
    have hc : (if isAdminType userType then adminTransitions current
        else ownerTransitions current).contains target = true :=
      List.elem_eq_true_of_mem hmem
    rw [hc] at h
    cases h
  simp [validateStatusTransition, h']

/-- Witness for the amended C2: `published → banned` is not an owner edge
and is denied with the capitalized reason. -/
theorem C2_denied_off_table_witness :
    ((if isAdminType "user" then adminTransitions "published"
      else ownerTransitions "published").contains "banned" = false) ∧
    validateStatusTransition "published" "banned" "user" =
      ⟨false, some "Cannot transition from published to banned"⟩ :=
  ⟨by decide, C2_denied_off_table "published" "banned" "user" (by decide)⟩

/-- Claim C3, counterexample: the claim says every operation that moves a
post to `published` is denied when title or body is empty.  `unhidePost`
(`src/controllers/post.status.controller.js` lines 148-206) publishes a
hidden post with empty `title` and `content` for its owner — the
transition table permits `hidden → published` and no content-completeness
check exists on that path. -/
theorem C3_counterexample :
    unhidePost (some ⟨"p1", "u1", "hidden", false, "", "", false, 0⟩) "u1" "user" =
      .ok ⟨"p1", "u1", "published", false, "", "", false, 0⟩ := rfl

/-- Claim C3, amended: publishing through the publish endpoint with empty
title or body is always denied, even when the transition table permits the
edge — `publishPost` never returns success on a post with empty title or
content, and for an owner whose post sits in a state with an owner edge to
`published` (unpublished or hidden) the denial is the content-completeness
400 "Title and content are required to publish", not a table denial.  The
guarantee does not extend to the other operations that set the status to
`published`: `unhidePost` performs no content check (see the
counterexample). -/
theorem C3_publish_guard (post : Post) (userType : String)
    (hempty : post.title = "" ∨ post.content = "") :
    (∀ userId p', publishPost (some post) userId userType ≠ .ok p') ∧
    ((post.status = "unpublished" ∨ post.status = "hidden") →
      isAdminType userType = false →
      publishPost (some post) post.userId userType =
        .badRequest "Title and content are required to publish") := by
  constructor
  · intro userId p' hok
    simp only [publishPost] at hok
    split at hok
    · exact absurd hok (by simp)
    · split at hok
      · exact absurd hok (by simp)
      · split at hok
        · exact absurd hok (by simp)
        · rename_i hcond
          apply hcond
          cases hempty with
          | inl h => simp [h]
          | inr h => simp [h]
  · intro hstat hadmin
    have htr : validateStatusTransition post.status "published" userType =
        ⟨true, none⟩ := by
      rcases hstat with h | h <;> rw [h] <;>
        simp [validateStatusTransition, hadmin] <;> decide
    have hown : ¬(post.userId ≠ post.userId) := fun hne => hne rfl
    have hcond : ((post.title = "" || post.content = "") = true) := by
      cases hempty with
      | inl h => simp [h]
      | inr h => simp [h]
    simp only [publishPost]
    rw [if_neg hown, htr]
    dsimp only
    rw [if_neg (by simp), if_pos hcond]

/-- Witness for the amended C3 at a concrete input: an owner's unpublished
post with empty title and content is denied with the content-completeness
400, never published. -/
theorem C3_publish_guard_witness :
    publishPost (some ⟨"p2", "u1", "unpublished", false, "", "", false, 0⟩) "u1" "user" ≠
      .ok ⟨"p2", "u1", "published", false, "", "", false, 0⟩ ∧
    publishPost (some ⟨"p2", "u1", "unpublished", false, "", "", false, 0⟩) "u1" "user" =
      .badRequest "Title and content are required to publish" :=
  ⟨(C3_publish_guard ⟨"p2", "u1", "unpublished", false, "", "", false, 0⟩ "user"
      (Or.inl rfl)).1 "u1" ⟨"p2", "u1", "published", false, "", "", false, 0⟩,
   (C3_publish_guard ⟨"p2", "u1", "unpublished", false, "", "", false, 0⟩ "user"
      (Or.inl rfl)).2 (Or.inl rfl) rfl⟩

/-- Claim C4, counterexample: `softDelete` is claimed idempotent, with the
second call a no-op and no double decrement.  The embedded-storage
`deleteReply` has no already-deleted guard: called again on the reply the
first call left inactive, it succeeds again and reports another -1 counter
delta, so two calls decrement the post's reply counter twice. -/
theorem C4_counterexample :
    deleteReply (some ⟨"r1", "u1", "p1", "hi", [], true, .nil⟩) none "u1" "user" =
      .ok ⟨"r1", "u1", "p1", "hi", [], false, .nil⟩ (-1) ∧
    deleteReply (some ⟨"r1", "u1", "p1", "hi", [], false, .nil⟩) none "u1" "user" =
      .ok ⟨"r1", "u1", "p1", "hi", [], false, .nil⟩ (-1) :=
  ⟨rfl, rfl⟩

/-- Claim C4, amended: the flat-collection `deleteComment` is idempotent —
after a successful delete, any further delete call on the same id by any
authenticated caller takes the already-deleted early return: a success
response, the collection unchanged, and no counter touched (this controller
performs no counter update at all).  The embedded-storage `deleteReply`, by
contrast, applies its counter decrement again on a repeated call (see the
counterexample). -/
theorem C4_deleteComment_idempotent (store : List FlatReply)
    (postId replyId uid utype : String) (owner? : Option String) (now : Nat)
    (r : FlatReply) (s1 : List FlatReply)
    (h : deleteComment store postId replyId (some (uid, utype)) owner? now = (.ok r, s1))
    (uid2 utype2 : String) (owner2? : Option String) (now2 : Nat) :
    ∃ tgt, deleteComment s1 postId replyId (some (uid2, utype2)) owner2? now2 =
      (.okAlreadyDeleted tgt, s1) := by
  obtain ⟨hpost, hrid, reply, hfind, hdel, hs1⟩ :=
    deleteComment_ok_shape _ _ _ _ _ _ _ _ _ h
  obtain ⟨tgt, hfind2, htgtdel, _⟩ :=
    findReply_after_softDelete store replyId uid now reply hfind reply.parentReplyId
  refine ⟨tgt, ?_⟩
  simp only [deleteComment]
  rw [if_neg (by simp [hpost, hrid])]
  rw [hs1, hfind2]
  dsimp only
  rw [if_pos htgtdel]

/-- Witness for the amended C4: a concrete second call on the collection
produced by a concrete successful first call is an unchanged-state
success. -/
theorem C4_deleteComment_idempotent_witness :
    ∃ tgt, deleteComment
        [⟨"r1", "u1", "p1", none, "[deleted]", [], [], false, true, some 3, some "u1", []⟩]
        "p1" "r1" (some ("u2", "user")) none 7 =
      (.okAlreadyDeleted tgt,
        [⟨"r1", "u1", "p1", none, "[deleted]", [], [], false, true, some 3, some "u1", []⟩]) :=
  C4_deleteComment_idempotent
    [⟨"r1", "u1", "p1", none, "hello", [], [], true, false, none, none, []⟩]
    "p1" "r1" "u1" "member" none 3
    ⟨"r1", "u1", "p1", none, "[deleted]", [], [], false, true, some 3, some "u1", []⟩
    [⟨"r1", "u1", "p1", none, "[deleted]", [], [], false, true, some 3, some "u1", []⟩]
    rfl "u2" "user" none 7

/-- Claim C5, counterexample: materialization does not keep the active
descendants of an inactive node reachable.  In the embedded nested view an
inactive node B is dropped together with its whole subtree, so its active
child C disappears from the output; and in the flat collection
`deleteComment` removes the deleted id from the parent's `replies`
projection instead of leaving it in the child list. -/
theorem C5_counterexample :
    processNestedReplies
      (.cons (.mk "ub" "B" [] false (.cons (.mk "uc" "C" [] true .nil) .nil)) .nil) =
      .nil ∧
    (SubReply.mk "uc" "C" [] true .nil).isActive = true ∧
    (deleteComment
        [⟨"a", "ua", "p1", none, "A", [], [], true, false, none, none, ["b"]⟩,
         ⟨"b", "ub", "p1", some "a", "B", [], [], true, false, none, none, []⟩]
        "p1" "b" (some ("ub", "user")) none 0).2 =
      [⟨"a", "ua", "p1", none, "A", [], [], true, false, none, none, []⟩,
       ⟨"b", "ub", "p1", some "a", "[deleted]", [], [], false, true, some 0, some "ub", []⟩] :=
  ⟨rfl, rfl, rfl⟩

/-- Claim C5, amended: inactive nodes are excluded from the nested
materialization view, but together with their entire subtrees: an inactive
head is dropped with everything below it, every node of the produced view
is deeply active, and a successful `deleteComment` removes the deleted
reply's id from its parent's `replies` projection. -/
theorem C5_materialization (r : SubReply) (rest : SubReplyList)
    (hr : r.isActive = false) :
    processNestedReplies (.cons r rest) = processNestedReplies rest ∧
    (∀ l : SubReplyList, (processNestedReplies l).allActiveDeep = true) ∧
    (∀ (store : List FlatReply) (postId replyId uid utype : String)
        (owner? : Option String) (now : Nat) (r0 : FlatReply) (s' : List FlatReply)
        (reply : FlatReply) (pid : String) (parent : FlatReply),
      deleteComment store postId replyId (some (uid, utype)) owner? now = (.ok r0, s') →
      findReply store replyId = some reply →
      reply.parentReplyId = some pid →
      findReply s' pid = some parent →
      replyId ∉ parent.replies) := by
  refine ⟨by simp [processNestedReplies, hr], processNestedReplies_allActive, ?_⟩
  intro store postId replyId uid utype owner? now r0 s' reply pid parent
  intro hcall hfind hpid hparent
  obtain ⟨_, _, reply', hfind', hdel', hs'⟩ :=
    deleteComment_ok_shape _ _ _ _ _ _ _ _ _ hcall
  rw [hfind] at hfind'
  injection hfind' with hrr
  subst hrr
  simp only [hpid] at hs'
  subst hs'
  rw [findReply_pullChildUpdate, if_pos rfl] at hparent
  cases hx : findReply (softDeleteUpdate replyId uid now store) pid with
  | none => rw [hx] at hparent; exact absurd hparent (by simp)
  | some x =>
    rw [hx] at hparent
    simp only [Option.map_some', Option.some.injEq] at hparent
    intro hmem
    rw [← hparent] at hmem
    have hmf := List.mem_filter.mp hmem
    simp at hmf

/-- Witness for the amended C5 at concrete inputs: an inactive head is
dropped from the view, and after a concrete successful delete the parent's
child list no longer holds the deleted id. -/
theorem C5_materialization_witness :
    processNestedReplies
        (.cons (.mk "ub" "B2" [] false .nil) (.cons (.mk "ud" "D" [] true .nil) .nil)) =
      processNestedReplies (.cons (.mk "ud" "D" [] true .nil) .nil) ∧
    "b" ∉ (FlatReply.replies
      ⟨"a", "ua", "p1", none, "A", [], [], true, false, none, none, []⟩) :=
  ⟨(C5_materialization (.mk "ub" "B2" [] false .nil)
      (.cons (.mk "ud" "D" [] true .nil) .nil) rfl).1,
   (C5_materialization (.mk "ub" "B2" [] false .nil)
      (.cons (.mk "ud" "D" [] true .nil) .nil) rfl).2.2
      [⟨"a", "ua", "p1", none, "A", [], [], true, false, none, none, ["b"]⟩,
       ⟨"b", "ub", "p1", some "a", "B", [], [], true, false, none, none, []⟩]
      "p1" "b" "ub" "user" none 0
      ⟨"b", "ub", "p1", some "a", "[deleted]", [], [], false, true, some 0, some "ub", []⟩
      [⟨"a", "ua", "p1", none, "A", [], [], true, false, none, none, []⟩,
       ⟨"b", "ub", "p1", some "a", "[deleted]", [], [], false, true, some 0, some "ub", []⟩]
      ⟨"b", "ub", "p1", some "a", "B", [], [], true, false, none, none, []⟩
      "a"
      ⟨"a", "ua", "p1", none, "A", [], [], true, false, none, none, []⟩
      rfl rfl rfl rfl⟩

/-- Claim C6, counterexample: the claim requires `repliesDisabled = false`
for reply creation to succeed.  `createReply` never reads the flag
(no reply-creation path in the source does): a published, non-archived post
with `repliesDisabled = true` accepts the reply. -/
theorem C6_counterexample :
    createReply (some "u2") (some "hi") []
      (some ⟨"p1", "u1", "published", false, "T", "B", true, 0⟩) "r9" =
      .created ⟨"r9", "u2", "p1", "hi", [], true, .nil⟩ 1 := rfl

/-- Claim C6, amended: given a non-empty userId and comment, `createReply`
succeeds exactly when the owning post exists, its status is `published` and
it is not archived; `repliesDisabled` is not consulted.  Every refusal is a
typed domain response — 404 "Post not found" when the post is missing, 403
"Cannot reply to this post" otherwise — never a generic failure. -/
theorem C6_createReply_guard (uid comment : String) (atts : List String)
    (post? : Option Post) (newId : String) (hu : uid ≠ "") (hc : comment ≠ "") :
    ((∃ r c, createReply (some uid) (some comment) atts post? newId = .created r c) ↔
      (∃ p, post? = some p ∧ p.status = "published" ∧ p.isArchived = false)) ∧
    (post? = none →
      createReply (some uid) (some comment) atts post? newId =
        .notFound "Post not found") ∧
    (∀ p, post? = some p → (p.status ≠ "published" ∨ p.isArchived = true) →
      createReply (some uid) (some comment) atts post? newId =
        .forbidden "Cannot reply to this post") := by
  refine ⟨⟨?_, ?_⟩, ?_, ?_⟩
  · rintro ⟨r, c, hcr⟩
    simp only [createReply] at hcr
    rw [if_neg (by simp [hu, hc])] at hcr
    cases post? with
    | none => exact absurd hcr (by simp)
    | some p =>
      dsimp only at hcr
      split at hcr
      · exact absurd hcr (by simp)
      · rename_i hcond
        simp only [Bool.or_eq_true, decide_eq_true_eq, not_or, Bool.not_eq_true] at hcond
        exact ⟨p, rfl, by simpa using hcond.1, hcond.2⟩
  · rintro ⟨p, hp, hstat, harch⟩
    subst hp
    refine ⟨⟨newId, uid, p.postId, comment, atts, true, .nil⟩, p.replyCount + 1, ?_⟩
    simp only [createReply]
    rw [if_neg (by simp [hu, hc])]
    rw [if_neg (by simp [hstat, harch])]
    rfl
  · intro hnone
    subst hnone
    simp only [createReply]
    rw [if_neg (by simp [hu, hc])]
  · intro p hp hbad
    subst hp
    simp only [createReply]
    rw [if_neg (by simp [hu, hc])]
    rw [if_pos ?_]
    cases hbad with
    | inl h => simp [h]
    | inr h => simp [h]

/-- Witness for the amended C6: an archived post and a missing post are
both refused with the typed domain response. -/
theorem C6_createReply_guard_witness :
    createReply (some "u2") (some "hi") []
      (some ⟨"p1", "u1", "published", true, "T", "B", false, 0⟩) "r9" =
      .forbidden "Cannot reply to this post" ∧
    createReply (some "u2") (some "hi") [] none "r9" = .notFound "Post not found" :=
  ⟨(C6_createReply_guard "u2" "hi" []
      (some ⟨"p1", "u1", "published", true, "T", "B", false, 0⟩) "r9"
      (by decide) (by decide)).2.2
      ⟨"p1", "u1", "published", true, "T", "B", false, 0⟩ rfl (Or.inr rfl),
   (C6_createReply_guard "u2" "hi" [] none "r9" (by decide) (by decide)).2.1 rfl⟩

/-- Claim C7, counterexample: the claim says inserting under a soft-deleted
parent fails with a ParentInactive error.  `createSubReply` never checks
the located reply's `isActive` flag: the sub-reply is pushed under a
soft-deleted top-level reply as long as the owning post is published and
not archived. -/
theorem C7_counterexample :
    createSubReply [⟨"r1", "u1", "p1", "top", [], false, .nil⟩]
      (fun pid => if pid = "p1"
        then some ⟨"p1", "u1", "published", false, "T", "B", false, 0⟩ else none)
      "r1" (some "u2") (some "sub") [] none none =
      .created ⟨"r1", "u1", "p1", "top", [], false,
        .cons (.mk "u2" "sub" [] true .nil) .nil⟩ 1 := rfl

/-- Claim C7, amended: the flat-collection `createComment` validates the
parent — "parentReplyId does not exist" when missing, "parentReplyId does
not belong to the same post" whenever the parent's postId differs (checked
before activity, so a cross-post insert always fails), and "parent reply is
not active" when the parent is soft-deleted and on the same post.  The
embedded-storage `createSubReply` performs no parent-activity check at all:
regardless of the located reply's `isActive` flag, the insert succeeds
whenever the owning post is published and not archived. -/
theorem C7_parent_checks (store : List FlatReply) (postId uid comment pid : String)
    (images atts : List String) (newId : String)
    (hpost : postId ≠ "") (hc : trimChars comment ≠ "") :
    (findReply store pid = none →
      createComment store postId (some uid) (some comment) (some pid) images atts newId =
        .badRequest "parentReplyId does not exist") ∧
    (∀ parent, findReply store pid = some parent → parent.postId ≠ postId →
      createComment store postId (some uid) (some comment) (some pid) images atts newId =
        .badRequest "parentReplyId does not belong to the same post") ∧
    (∀ parent, findReply store pid = some parent → parent.postId = postId →
      (parent.isActive = false ∨ parent.isDeleted = true) →
      createComment store postId (some uid) (some comment) (some pid) images atts newId =
        .badRequest "parent reply is not active") ∧
    (∀ (estore : List TopReply) (posts : String → Option Post)
        (replyId uid2 c2 : String) (atts2 : List String) (top : TopReply) (post : Post),
      uid2 ≠ "" → c2 ≠ "" →
      findTop estore replyId = some top →
      posts top.postId = some post →
      post.status = "published" → post.isArchived = false →
      createSubReply estore posts replyId (some uid2) (some c2) atts2 none none =
        .created
          { top with replies := top.replies.push (.mk uid2 c2 atts2 true .nil) }
          1) := by
  refine ⟨?_, ?_, ?_, ?_⟩
  · intro hnone
    simp only [createComment]
    rw [if_neg (by simp [hpost]), if_neg (by simp [hc])]
    try dsimp only
    rw [hnone]
  · intro parent hsome hne
    simp only [createComment]
    rw [if_neg (by simp [hpost]), if_neg (by simp [hc])]
    try dsimp only
    rw [hsome]
    try dsimp only
    rw [if_pos hne]
  · intro parent hsome hpid hinact
    simp only [createComment]
    rw [if_neg (by simp [hpost]), if_neg (by simp [hc])]
    try dsimp only
    rw [hsome]
    try dsimp only
    rw [if_neg (by simp [hpid]), if_pos ?_]
    cases hinact with
    | inl h => simp [h]
    | inr h => simp [h]
  · intro estore posts replyId uid2 c2 atts2 top post hu2 hc2 hfind hpost2 hstat harch
    simp only [createSubReply]
    rw [if_neg (by simp [hu2, hc2])]
    try dsimp only
    rw [hfind]
    try dsimp only
    rw [hpost2]
    try dsimp only
    rw [if_neg (by simp [hstat, harch])]
    rfl

/-- Witness for the amended C7: the three createComment refusals and one
createSubReply success at concrete inputs. -/
theorem C7_parent_checks_witness :
    createComment [] "p1" (some "u") (some "hi") (some "x") [] [] "n1" =
      .badRequest "parentReplyId does not exist" ∧
    createComment [⟨"x", "uo", "p2", none, "other", [], [], true, false, none, none, []⟩]
      "p1" (some "u") (some "hi") (some "x") [] [] "n1" =
      .badRequest "parentReplyId does not belong to the same post" ∧
    createComment [⟨"x", "uo", "p1", none, "gone", [], [], false, true, some 1, some "uo", []⟩]
      "p1" (some "u") (some "hi") (some "x") [] [] "n1" =
      .badRequest "parent reply is not active" ∧
    createSubReply [⟨"r1", "u1", "p1", "top", [], false, .nil⟩]
      (fun _ => some ⟨"p1", "u1", "published", false, "T", "B", false, 0⟩)
      "r1" (some "u3") (some "s2") ["f.png"] none none =
      .created ⟨"r1", "u1", "p1", "top", [], false,
        .cons (.mk "u3" "s2" ["f.png"] true .nil) .nil⟩ 1 :=
  ⟨(C7_parent_checks [] "p1" "u" "hi" "x" [] [] "n1" (by decide) (by decide)).1 rfl,
   (C7_parent_checks
      [⟨"x", "uo", "p2", none, "other", [], [], true, false, none, none, []⟩]
      "p1" "u" "hi" "x" [] [] "n1" (by decide) (by decide)).2.1
      ⟨"x", "uo", "p2", none, "other", [], [], true, false, none, none, []⟩
      rfl (by decide),
   (C7_parent_checks
      [⟨"x", "uo", "p1", none, "gone", [], [], false, true, some 1, some "uo", []⟩]
      "p1" "u" "hi" "x" [] [] "n1" (by decide) (by decide)).2.2.1
      ⟨"x", "uo", "p1", none, "gone", [], [], false, true, some 1, some "uo", []⟩
      rfl rfl (Or.inl rfl),
   (C7_parent_checks [] "p1" "u" "hi" "x" [] [] "n1" (by decide) (by decide)).2.2.2
      [⟨"r1", "u1", "p1", "top", [], false, .nil⟩]
      (fun _ => some ⟨"p1", "u1", "published", false, "T", "B", false, 0⟩)
      "r1" "u3" "s2" ["f.png"]
      ⟨"r1", "u1", "p1", "top", [], false, .nil⟩
      ⟨"p1", "u1", "published", false, "T", "B", false, 0⟩
      (by decide) (by decide) rfl rfl rfl rfl⟩

theorem findReply_softDeleteUpdate_ne (store : List FlatReply)
    (replyId uid rid : String) (now : Nat) (h : replyId ≠ rid) :
    findReply (softDeleteUpdate replyId uid now store) rid = findReply store rid := by
  have hh := findReply_updateFirst replyId rid
    (fun r =>
      { r with
        isDeleted := true, deletedAt := some now,
        deletedBy := some uid, isActive := false,
        comment := "[deleted]" })
    (fun r => rfl) store
  rw [if_neg h] at hh
  simpa [softDeleteUpdate] using hh

/-- Claim C8: soft-deleting a reply flips `isActive` to false on that reply
only.  In the embedded storage, the path-addressed soft delete of
`deleteNestedReply` flips the node at the target path and leaves the
`isActive` flag of every node at every other path — descendants of the
target included — unchanged; in the flat collection a successful
`deleteComment` leaves the `isActive` flag of every other record
unchanged. -/
theorem C8_frame :
    (∀ (l : SubReplyList) (p : List Nat) (t : SubReply) (l' : SubReplyList),
      softDeleteNav l p = some (t, l') →
      getAt l p = some t ∧
      (getAt l' p).map SubReply.isActive = some false ∧
      ∀ q : List Nat, q ≠ p →
        (getAt l' q).map SubReply.isActive = (getAt l q).map SubReply.isActive) ∧
    (∀ (store : List FlatReply) (postId replyId uid utype : String)
        (owner? : Option String) (now : Nat) (r : FlatReply) (s' : List FlatReply),
      deleteComment store postId replyId (some (uid, utype)) owner? now = (.ok r, s') →
      ∀ rid, rid ≠ replyId →
        (findReply s' rid).map FlatReply.isActive =
          (findReply store rid).map FlatReply.isActive) := by
  constructor
  · intro l p t l' h
    obtain ⟨h1, h2, h3⟩ := softDeleteNav_frame p l t l' h
    refine ⟨h1, ?_, h3⟩
    rw [h2]
    simp [withIsActive_isActive]
  · intro store postId replyId uid utype owner? now r s' h rid hne
    obtain ⟨_, _, reply, hfind, hdel, hs'⟩ :=
      deleteComment_ok_shape _ _ _ _ _ _ _ _ _ h
    subst hs'
    have hne' : replyId ≠ rid := fun hx => hne hx.symm
    cases hp : reply.parentReplyId with
    | none =>
      simp only [hp]
      rw [findReply_softDeleteUpdate_ne store replyId uid rid now hne']
    | some pid =>
      simp only [hp]
      rw [findReply_pullChildUpdate]
      by_cases hpr : pid = rid
      · rw [if_pos hpr, findReply_softDeleteUpdate_ne store replyId uid rid now hne']
        cases hfr : findReply store rid <;> simp
      · rw [if_neg hpr, findReply_softDeleteUpdate_ne store replyId uid rid now hne']

/-- Witness for C8 at concrete inputs: deleting the nested node at path
[0, 0] leaves the flag at path [0] unchanged, and in the flat store the
record `k1` keeps its flag when `d1` is deleted. -/
theorem C8_frame_witness :
    (getAt (.cons (.mk "a" "A" [] true (.cons (.mk "b" "B" [] false .nil) .nil)) .nil)
        [0]).map SubReply.isActive =
      (getAt (.cons (.mk "a" "A" [] true (.cons (.mk "b" "B" [] true .nil) .nil)) .nil)
        [0]).map SubReply.isActive ∧
    (findReply
        [⟨"d1", "u1", "p1", none, "[deleted]", [], [], false, true, some 5, some "u1", []⟩,
         ⟨"k1", "u2", "p1", none, "keep", [], [], true, false, none, none, []⟩]
        "k1").map FlatReply.isActive =
      (findReply
        [⟨"d1", "u1", "p1", none, "del-me", [], [], true, false, none, none, []⟩,
         ⟨"k1", "u2", "p1", none, "keep", [], [], true, false, none, none, []⟩]
        "k1").map FlatReply.isActive :=
  ⟨(C8_frame.1
      (.cons (.mk "a" "A" [] true (.cons (.mk "b" "B" [] true .nil) .nil)) .nil)
      [0, 0] (.mk "b" "B" [] true .nil)
      (.cons (.mk "a" "A" [] true (.cons (.mk "b" "B" [] false .nil) .nil)) .nil)
      rfl).2.2 [0] (by decide),
   C8_frame.2
      [⟨"d1", "u1", "p1", none, "del-me", [], [], true, false, none, none, []⟩,
       ⟨"k1", "u2", "p1", none, "keep", [], [], true, false, none, none, []⟩]
      "p1" "d1" "u1" "user" none 5
      ⟨"d1", "u1", "p1", none, "[deleted]", [], [], false, true, some 5, some "u1", []⟩
      [⟨"d1", "u1", "p1", none, "[deleted]", [], [], false, true, some 5, some "u1", []⟩,
       ⟨"k1", "u2", "p1", none, "keep", [], [], true, false, none, none, []⟩]
      rfl "k1" (by decide)⟩

/-- Claim C9, counterexample: the claim says no operation ever mutates a
reply's content fields after creation.  `deleteComment` rewrites the
`comment` body to the placeholder "[deleted]" when soft-deleting. -/
theorem C9_counterexample :
    (deleteComment
        [⟨"c1", "u1", "p1", none, "hello", [], [], true, false, none, none, []⟩]
        "p1" "c1" (some ("u1", "user")) none 4).2 =
      [⟨"c1", "u1", "p1", none, "[deleted]", [], [], false, true, some 4, some "u1", []⟩] ∧
    "[deleted]" ≠ "hello" :=
  ⟨rfl, by decide⟩

/-- Claim C9, amended: after creation, a reply's author, post, parent,
attachments and images are never changed; the embedded `deleteReply`
changes only the `isActive` flag, while the flat `deleteComment`
additionally stamps the deletion metadata and redacts the `comment` body to
the "[deleted]" placeholder (a parent record can also lose the deleted id
from its `replies` projection). -/
theorem C9_content_immutable :
    (∀ (reply : TopReply) (post? : Option Post) (uid utype : String)
        (r : TopReply) (d : Int),
      deleteReply (some reply) post? uid utype = .ok r d →
      r.comment = reply.comment ∧ r.userId = reply.userId ∧ r.postId = reply.postId ∧
      r.attachments = reply.attachments ∧ r.replies = reply.replies) ∧
    (∀ (store : List FlatReply) (postId replyId uid utype : String)
        (owner? : Option String) (now : Nat) (r : FlatReply) (s' : List FlatReply)
        (reply : FlatReply),
      deleteComment store postId replyId (some (uid, utype)) owner? now = (.ok r, s') →
      findReply store replyId = some reply →
      ∃ tgt, findReply s' replyId = some tgt ∧
        tgt.userId = reply.userId ∧ tgt.postId = reply.postId ∧
        tgt.parentReplyId = reply.parentReplyId ∧ tgt.images = reply.images ∧
        tgt.attachments = reply.attachments ∧
        tgt.isActive = false ∧ tgt.isDeleted = true ∧ tgt.comment = "[deleted]") := by
  constructor
  · intro reply post? uid utype r d h
    simp only [deleteReply] at h
    split at h
    · exact absurd h (by simp)
    · simp only [DeleteReplyResult.ok.injEq] at h
      obtain ⟨hr, _⟩ := h
      subst hr
      exact ⟨rfl, rfl, rfl, rfl, rfl⟩
  · intro store postId replyId uid utype owner? now r s' reply h hfind
    obtain ⟨_, _, reply', hfind', _, hs'⟩ :=
      deleteComment_ok_shape _ _ _ _ _ _ _ _ _ h
    rw [hfind] at hfind'
    injection hfind' with hrr
    subst hrr
    subst hs'
    obtain ⟨tgt, hfx, hdel, hact, hcomm, _, _, huid, hpid, hpar, himg, hatt⟩ :=
      findReply_after_softDelete store replyId uid now reply hfind reply.parentReplyId
    exact ⟨tgt, hfx, huid, hpid, hpar, himg, hatt, hact, hdel, hcomm⟩

/-- Witness for the amended C9 at concrete inputs. -/
theorem C9_content_immutable_witness :
    ((⟨"r2", "u1", "p2", "keep", ["a.png"], false, .nil⟩ : TopReply).comment =
        (⟨"r2", "u1", "p2", "keep", ["a.png"], true, .nil⟩ : TopReply).comment ∧
      (⟨"r2", "u1", "p2", "keep", ["a.png"], false, .nil⟩ : TopReply).userId =
        (⟨"r2", "u1", "p2", "keep", ["a.png"], true, .nil⟩ : TopReply).userId ∧
      (⟨"r2", "u1", "p2", "keep", ["a.png"], false, .nil⟩ : TopReply).postId =
        (⟨"r2", "u1", "p2", "keep", ["a.png"], true, .nil⟩ : TopReply).postId ∧
      (⟨"r2", "u1", "p2", "keep", ["a.png"], false, .nil⟩ : TopReply).attachments =
        (⟨"r2", "u1", "p2", "keep", ["a.png"], true, .nil⟩ : TopReply).attachments ∧
      (⟨"r2", "u1", "p2", "keep", ["a.png"], false, .nil⟩ : TopReply).replies =
        (⟨"r2", "u1", "p2", "keep", ["a.png"], true, .nil⟩ : TopReply).replies) ∧
    (∃ tgt, findReply
        [⟨"c2", "u5", "p9", none, "[deleted]", ["i.png"], ["f.pdf"], false, true,
          some 6, some "u5", ["child"]⟩] "c2" = some tgt ∧
      tgt.userId = "u5" ∧ tgt.postId = "p9" ∧
      tgt.parentReplyId = none ∧ tgt.images = ["i.png"] ∧
      tgt.attachments = ["f.pdf"] ∧
      tgt.isActive = false ∧ tgt.isDeleted = true ∧ tgt.comment = "[deleted]") :=
  ⟨C9_content_immutable.1
      ⟨"r2", "u1", "p2", "keep", ["a.png"], true, .nil⟩ none "u1" "user"
      ⟨"r2", "u1", "p2", "keep", ["a.png"], false, .nil⟩ (-1) rfl,
   C9_content_immutable.2
      [⟨"c2", "u5", "p9", none, "bye", ["i.png"], ["f.pdf"], true, false, none, none,
        ["child"]⟩]
      "p9" "c2" "u5" "user" none 6
      ⟨"c2", "u5", "p9", none, "[deleted]", ["i.png"], ["f.pdf"], false, true,
        some 6, some "u5", ["child"]⟩
      [⟨"c2", "u5", "p9", none, "[deleted]", ["i.png"], ["f.pdf"], false, true,
        some 6, some "u5", ["child"]⟩]
      ⟨"c2", "u5", "p9", none, "bye", ["i.png"], ["f.pdf"], true, false, none, none,
        ["child"]⟩
      rfl rfl⟩

/-- Claim C10: a non-admin caller requesting a specific listing status other
than published, unpublished or hidden (e.g. banned or deleted) gets the
published-only filter back: the request is silently ignored — the result
equals the no-status default and matches exactly the published posts,
rather than honouring the request or returning an empty set. -/
theorem C10_listing_fallback (userId userType s : String)
    (hadmin : isAdminType userType = false)
    (h1 : s ≠ "published") (h2 : s ≠ "unpublished") (h3 : s ≠ "hidden") :
    buildVisibilityFilter userId userType (some s) = .inList ["published"] ∧
    buildVisibilityFilter userId userType (some s) =
      buildVisibilityFilter userId userType none ∧
    ∀ st, ((buildVisibilityFilter userId userType (some s)).accepts st = true ↔
      st = "published") := by
  have hc1 : ¬((s = "unpublished" || s = "hidden") = true) := by
    simp only [Bool.or_eq_true, decide_eq_true_eq]
    intro hcontra
    rcases hcontra with h | h
    · exact h2 h
    · exact h3 h
  have hc2 : ¬(["published"].contains s = true) := by
    intro hcontra
    have hmem : s ∈ ["published"] := List.mem_of_elem_eq_true hcontra
    simp at hmem
    exact h1 hmem
  have key : buildVisibilityFilter userId userType (some s) = .inList ["published"] := by
    simp only [buildVisibilityFilter, hadmin]
    simp only [Bool.false_eq_true, if_false]
    rw [if_neg hc1, if_neg hc2]
  refine ⟨key, ?_, ?_⟩
  · rw [key]
    simp [buildVisibilityFilter, hadmin]
  · intro st
    rw [key]
    simp [StatusFilter.accepts, eq_comm]

/-- Witness for C10: a regular user requesting `banned` is handed the
published-only filter. -/
theorem C10_listing_fallback_witness :
    buildVisibilityFilter "u1" "user" (some "banned") = .inList ["published"] ∧
    ((buildVisibilityFilter "u1" "user" (some "banned")).accepts "banned" = true ↔
      "banned" = "published") :=
  ⟨(C10_listing_fallback "u1" "user" "banned" rfl (by decide) (by decide) (by decide)).1,
   (C10_listing_fallback "u1" "user" "banned" rfl (by decide) (by decide) (by decide)).2.2
      "banned"⟩

end ForumSpec
